import Mathlib

/-
Verification of the Yaner task state synchronization engine.

Shallow embedding of `src/yaner/Task.py` (classes Task, NormalTask, BTTask,
MLTask) and of the grouping membership filters of `src/yaner/Presentable.py`
(Queuing.tasks, Category._get_tasks, Dustbin.tasks).

Python methods are embedded as pure functions on an explicit `TaskState`
record.  Side effects — remote-procedure calls issued through the pool proxy,
GLib scheduler operations, database commits, GObject signal emissions,
Presentable membership changes and notifications — are returned as an explicit
`Effect` list.  Deferred callbacks (`add_callback` / `add_errback`) are kept
as a list of in-flight `PendingCall`s; an event-loop transition relation
`Step` fires user operations, scheduler ticks, and engine responses, exactly
mirroring the single-threaded cooperative model of the source.
-/

namespace Yaner

/-- The task statuses, from `Task.STATUSES` in Task.py (INACTIVE, ACTIVE,
WAITING, PAUSED, COMPLETE, ERROR, TRASHED).  The older-generation enum used by
Presentable.py names the trashed state `REMOVED`; the spec identifies the two,
so the single constructor `TRASHED` stands for both. -/
inductive Status
  | INACTIVE
  | ACTIVE
  | WAITING
  | PAUSED
  | COMPLETE
  | ERROR
  | TRASHED
deriving DecidableEq, Repr

/-- The task kinds, from `Task.TYPES` in Task.py. -/
inductive TaskType
  | NORMAL
  | BT
  | ML
deriving DecidableEq, Repr

/-- The three Presentable groupings of Presentable.py. -/
inductive Grouping
  | QUEUING
  | CATEGORY
  | DUSTBIN
deriving DecidableEq, Repr

/-- Observable side effects of task operations. -/
inductive Effect
  | remoteCall (method : String)
  | timeoutAdd (interval : Nat) (handle : Nat)
  | sourceRemove (handle : Nat)
  | syncUpdate
  | changedSignal
  | notification (title : String)
  | presChanged (g : Grouping)
  | taskAdded (g : Grouping)
  | taskRemoved (g : Grouping)
  | poolConnected
  | deleteRecord
deriving DecidableEq, Repr

/-- An in-flight deferred remote call, identified by which aria2 method was
invoked (each one has a fixed callback/errback pair in the source). -/
inductive PendingCall
  | addCall
  | pauseCall
  | unpauseCall
  | removeCall
  | tellStatusCall
  | sessionInfoCall
deriving DecidableEq, Repr

/-- The mutable per-task state of Task.py: the persisted columns plus the
transient fields set in `_init` (speeds, connections, scheduler handles and
the rename lock).  `next_handle` models GLib's supply of fresh, positive
source ids returned by `timeout_add_seconds`. -/
structure TaskState where
  name : String
  status : Status
  ttype : TaskType
  uris : List String
  completed_length : Nat
  total_length : Nat
  gid : String
  session_id : String
  upload_speed : Nat
  download_speed : Nat
  connections : Nat
  status_update_handle : Option Nat
  database_sync_handle : Option Nat
  renamed : Bool
  next_handle : Nat
deriving DecidableEq, Repr

/-- `Task._UPDATE_INTERVAL`: seconds between status polls. -/
def UPDATE_INTERVAL : Nat := 1

/-- `Task._SYNC_INTERVAL`: seconds between database syncs. -/
def SYNC_INTERVAL : Nat := 60

/-- Python truthiness of an optional GLib handle: `if self._status_update_handle:`
is false for `None` and for 0 (GLib never returns 0 as a source id). -/
def truthy : Option Nat → Bool
  | none => false
  | some n => n ≠ 0

/-- `Presentable.add_task`: emits 'changed' then 'task-added'. -/
def addTaskEffects (g : Grouping) : List Effect :=
  [Effect.presChanged g, Effect.taskAdded g]

/-- `Presentable.remove_task`: emits 'changed' then 'task-removed'. -/
def removeTaskEffects (g : Grouping) : List Effect :=
  [Effect.presChanged g, Effect.taskRemoved g]

/-- The `status` property setter of Task.py: when the new status differs the
column is written, `_sync_update()` commits and `changed()` emits the signal;
otherwise the column is written silently.  (`hash(self)` is nonzero for every
live GObject instance, so the guard reduces to the inequality test.) -/
def setStatus (t : TaskState) (s : Status) : TaskState × List Effect :=
  if t.status ≠ s then
    ({ t with status := s }, [Effect.syncUpdate, Effect.changedSignal])
  else
    ({ t with status := s }, [])

/-- `Task.completed`: `self.total_length and (self.total_length == self.completed_length)`;
Python truthiness makes this "total_length nonzero and equal to completed_length". -/
def completed (t : TaskState) : Bool :=
  t.total_length ≠ 0 && t.total_length == t.completed_length

/-- The aria2 add method used by each Task subclass (`NormalTask.add`,
`BTTask.add`, `MLTask.add`). -/
def addMethodName : TaskType → String
  | TaskType.NORMAL => "aria2.addUri"
  | TaskType.BT => "aria2.addTorrent"
  | TaskType.ML => "aria2.addMetalink"

/-- The kind-specific `add` methods: each issues one remote call with
`_on_started` as callback and `_on_xmlrpc_error` as errback. -/
def add (t : TaskState) : TaskState × List Effect × List PendingCall :=
  (t, [Effect.remoteCall (addMethodName t.ttype)], [PendingCall.addCall])

/-- `Task.start`: unpause if paused; if Inactive or Error, `add()` then
`self.pool.queuing.add_task(self)`. -/
def start (t : TaskState) : TaskState × List Effect × List PendingCall :=
  if t.status = Status.PAUSED then
    (t, [Effect.remoteCall "aria2.unpause"], [PendingCall.unpauseCall])
  else if t.status = Status.INACTIVE ∨ t.status = Status.ERROR then
    let q := add t
    (q.1, q.2.1 ++ addTaskEffects Grouping.QUEUING, q.2.2)
  else
    (t, [], [])

/-- `Task.pause`: only from Active/Waiting issues `aria2.pause`. -/
def pause (t : TaskState) : TaskState × List Effect × List PendingCall :=
  if t.status = Status.ACTIVE ∨ t.status = Status.WAITING then
    (t, [Effect.remoteCall "aria2.pause"], [PendingCall.pauseCall])
  else
    (t, [], [])

/-- `Task._on_trashed`: remember whether the task was Complete, set status to
Trashed, remove from Category (if it was complete) or Queuing (otherwise),
then add to Dustbin. -/
def on_trashed (t : TaskState) : TaskState × List Effect :=
  let wasComplete := t.status = Status.COMPLETE
  let q := setStatus t Status.TRASHED
  let r := if wasComplete then removeTaskEffects Grouping.CATEGORY
           else removeTaskEffects Grouping.QUEUING
  (q.1, q.2 ++ r ++ addTaskEffects Grouping.DUSTBIN)

/-- `Task.trash`: from Complete/Error/Inactive trash locally; from
Waiting/Active/Paused issue `aria2.remove` with `_on_trashed` as callback. -/
def trash (t : TaskState) : TaskState × List Effect × List PendingCall :=
  if t.status = Status.COMPLETE ∨ t.status = Status.ERROR ∨
     t.status = Status.INACTIVE then
    let q := on_trashed t
    (q.1, q.2, [])
  else if t.status = Status.WAITING ∨ t.status = Status.ACTIVE ∨
          t.status = Status.PAUSED then
    (t, [Effect.remoteCall "aria2.remove"], [PendingCall.removeCall])
  else
    (t, [], [])

/-- `Task.restore`: only from Trashed; remove from Dustbin, then re-add to
Category (status Complete) when `completed`, else to Queuing (status
Inactive).  The source calls `add_task` before assigning the status. -/
def restore (t : TaskState) : TaskState × List Effect :=
  if t.status = Status.TRASHED then
    if completed t then
      let q := setStatus t Status.COMPLETE
      (q.1, removeTaskEffects Grouping.DUSTBIN ++
            addTaskEffects Grouping.CATEGORY ++ q.2)
    else
      let q := setStatus t Status.INACTIVE
      (q.1, removeTaskEffects Grouping.DUSTBIN ++
            addTaskEffects Grouping.QUEUING ++ q.2)
  else
    (t, [])

/-- `Task.remove`: only from Trashed; remove from Dustbin, delete the
persisted record, commit.  The record is gone afterwards. -/
def remove (t : TaskState) : TaskState × List Effect :=
  if t.status = Status.TRASHED then
    (t, removeTaskEffects Grouping.DUSTBIN ++
        [Effect.deleteRecord, Effect.syncUpdate])
  else
    (t, [])

/-- `Task.begin_update_status`: when no status-update schedule is active,
register the status poll (every `_UPDATE_INTERVAL`) and the database sync
(every `_SYNC_INTERVAL`); otherwise do nothing. -/
def begin_update_status (t : TaskState) : TaskState × List Effect :=
  if t.status_update_handle = none then
    let h1 := t.next_handle
    let h2 := t.next_handle + 1
    ({ t with status_update_handle := some h1,
              database_sync_handle := some h2,
              next_handle := t.next_handle + 2 },
     [Effect.timeoutAdd UPDATE_INTERVAL h1, Effect.timeoutAdd SYNC_INTERVAL h2])
  else
    (t, [])

/-- One arm of `Task.end_update_status`: `if handle: GLib.source_remove(handle);
handle = None`. -/
def cancelHandle (h : Option Nat) : Option Nat × List Effect :=
  if truthy h then (none, [Effect.sourceRemove (h.getD 0)]) else (h, [])

/-- `Task.end_update_status`: cancel the status-update schedule and the
database-sync schedule when present; safe to call when not running. -/
def end_update_status (t : TaskState) : TaskState × List Effect :=
  let q1 := cancelHandle t.status_update_handle
  let q2 := cancelHandle t.database_sync_handle
  ({ t with status_update_handle := q1.1, database_sync_handle := q2.1 },
   q1.2 ++ q2.2)

/-- The result of an aria2 add call: aria2 returns either a single gid string
or (for metalink/torrent) a list of gid strings. -/
inductive AddResult
  | str (s : String)
  | list (l : List String)
deriving DecidableEq, Repr

/-- The gid `Task._on_started` extracts: `gid[-1] if isinstance(gid, list) else gid`. -/
def addResultGid : AddResult → String
  | AddResult.str s => s
  | AddResult.list l => l.getLastD ""

/-- `Task._on_started`: store the gid (last element when the result is a
list — Python's `gid[-1]` raises IndexError on an empty list, modelled as
`none`), set status Active, issue the `aria2.getSessionInfo` fetch of
`_update_session_id`, then `begin_update_status`. -/
def on_started (t : TaskState) (r : AddResult) :
    Option (TaskState × List Effect × List PendingCall) :=
  match r with
  | AddResult.list [] => none
  | _ =>
    let t1 := { t with gid := addResultGid r }
    let q2 := setStatus t1 Status.ACTIVE
    let q3 := begin_update_status q2.1
    some (q3.1,
          q2.2 ++ [Effect.remoteCall "aria2.getSessionInfo"] ++ q3.2,
          [PendingCall.sessionInfoCall])

/-- `Task._on_paused`: set status Paused. -/
def on_paused (t : TaskState) : TaskState × List Effect :=
  setStatus t Status.PAUSED

/-- `Task._on_unpaused`: set status Active. -/
def on_unpaused (t : TaskState) : TaskState × List Effect :=
  setStatus t Status.ACTIVE

/-- The callback inside `Task._update_session_id`: store the session id and
commit. -/
def on_got_session_info (t : TaskState) (sid : String) : TaskState × List Effect :=
  ({ t with session_id := sid }, [Effect.syncUpdate])

/-- `Task._on_xmlrpc_error`: the shared errback of every remote call — set
status Error and show a "Network Error" notification. -/
def on_xmlrpc_error (t : TaskState) : TaskState × List Effect :=
  let q := setStatus t Status.ERROR
  (q.1, q.2 ++ [Effect.notification "Network Error"])

/-- `Task._call_tell_status`: the periodic poll callback.  In a
terminal-for-polling status it self-cancels via `end_update_status` and
returns False (stop); otherwise it issues one `aria2.tellStatus` call and
returns True (continue). -/
def call_tell_status (t : TaskState) :
    TaskState × List Effect × List PendingCall × Bool :=
  if t.status = Status.COMPLETE ∨ t.status = Status.ERROR ∨
     t.status = Status.TRASHED ∨ t.status = Status.INACTIVE then
    let q := end_update_status t
    (q.1, q.2, [], false)
  else
    (t, [Effect.remoteCall "aria2.tellStatus"],
     [PendingCall.tellStatusCall], true)

/-- The fields of an `aria2.tellStatus` response used by `_update_status`.
`files` is the list of result file paths; `bittorrent` is the optional
torrent info name. -/
structure TellStatus where
  statusStr : String
  totalLength : Nat
  completedLength : Nat
  downloadSpeed : Nat
  uploadSpeed : Nat
  connections : Nat
  files : List String
  bittorrent : Option String
deriving DecidableEq, Repr

/-- The `statuses` dictionary of `Task._update_status`; an unknown status
string raises KeyError, modelled as `none`. -/
def mapStatus (s : String) : Option Status :=
  if s = "active" then some Status.ACTIVE
  else if s = "waiting" then some Status.WAITING
  else if s = "paused" then some Status.PAUSED
  else if s = "complete" then some Status.COMPLETE
  else if s = "error" then some Status.ERROR
  else if s = "removed" then some Status.TRASHED
  else none

/-- First half of `Task._update_status`: copy the byte counters, speeds and
connection count out of the tellStatus response. -/
def withData (t : TaskState) (r : TellStatus) : TaskState :=
  { t with total_length := r.totalLength,
           completed_length := r.completedLength,
           download_speed := r.downloadSpeed,
           upload_speed := r.uploadSpeed,
           connections := r.connections }

/-- Second half of `Task._update_status`, after the status string has been
mapped: assign the status, then on Complete leave Queuing and join Category;
on Trashed return through `_on_trashed` (skipping the
`pool.connected = True` line, as the early `return` does in the source);
otherwise emit 'changed'.  The Complete and default branches then set
`pool.connected = True`. -/
def apply_status (t0 : TaskState) (st : Status) : TaskState × List Effect :=
  if (setStatus t0 st).1.status = Status.COMPLETE then
    ((setStatus t0 st).1,
     (setStatus t0 st).2 ++ removeTaskEffects Grouping.QUEUING ++
     addTaskEffects Grouping.CATEGORY ++ [Effect.poolConnected])
  else if (setStatus t0 st).1.status = Status.TRASHED then
    ((on_trashed (setStatus t0 st).1).1,
     (setStatus t0 st).2 ++ (on_trashed (setStatus t0 st).1).2)
  else
    ((setStatus t0 st).1,
     (setStatus t0 st).2 ++ [Effect.changedSignal, Effect.poolConnected])

/-- `Task._update_status`: data fields, status mapping, grouping moves.  An
unknown status string raises KeyError, modelled as `none` for the whole call
(in the source the data fields are written before the lookup; no claim
concerns that partially-updated path). -/
def update_status (t : TaskState) (r : TellStatus) :
    Option (TaskState × List Effect) :=
  match mapStatus r.statusStr with
  | none => none
  | some st => some (apply_status (withData t r) st)

/-- `os.path.basename` on a POSIX path: the part after the last '/'. -/
def basename (s : String) : String :=
  String.mk (s.data.foldl (fun acc c => if c = '/' then [] else acc ++ [c]) [])

/-- Value of a hexadecimal digit character. -/
def hexVal (c : Char) : Option Nat :=
  if '0' ≤ c ∧ c ≤ '9' then some (c.toNat - 48)
  else if 'a' ≤ c ∧ c ≤ 'f' then some (c.toNat - 87)
  else if 'A' ≤ c ∧ c ≤ 'F' then some (c.toNat - 55)
  else none

/-- Percent-decoding on a character list: each `%XX` escape with two hex
digits becomes the character with that code; anything else is kept. -/
def unquoteChars : List Char → List Char
  | [] => []
  | '%' :: a :: b :: rest2 =>
    match hexVal a, hexVal b with
    | some x, some y => Char.ofNat (16 * x + y) :: unquoteChars rest2
    | _, _ => '%' :: unquoteChars (a :: b :: rest2)
  | '%' :: rest => '%' :: unquoteChars rest
  | c :: rest => c :: unquoteChars rest

/-- Modelled from the spec: `unquote` is imported from `yaner.Misc`, whose
source is not included; the spec describes the derived display name as the
"percent-decoded basename", so `unquote` is percent-decoding. -/
def unquote (s : String) : String :=
  String.mk (unquoteChars s.data)

/-- The rename step of `NormalTask._update_status`: when not yet renamed and
the response reports exactly one file, take the percent-decoded basename of
its path and, if non-empty, use it as the task name and lock the rename. -/
def renameNormal (t : TaskState) (r : TellStatus) : TaskState :=
  if t.renamed = false then
    match r.files with
    | [p] =>
      if unquote (basename p) ≠ "" then
        { t with name := unquote (basename p), renamed := true }
      else t
    | _ => t
  else t

/-- `NormalTask._update_status`: the rename step, then `Task._update_status`. -/
def normal_update_status (t : TaskState) (r : TellStatus) :
    Option (TaskState × List Effect) :=
  update_status (renameNormal t r) r

/-- The rename step of `BTTask._update_status`: when not yet renamed and the
response carries a `bittorrent` entry, take the unquoted info name and, if
non-empty, use it as the task name and lock the rename. -/
def renameBT (t : TaskState) (r : TellStatus) : TaskState :=
  if t.renamed = false then
    match r.bittorrent with
    | some bn =>
      if unquote bn ≠ "" then
        { t with name := unquote bn, renamed := true }
      else t
    | none => t
  else t

/-- `BTTask._update_status`: the rename step, then `Task._update_status`. -/
def bt_update_status (t : TaskState) (r : TellStatus) :
    Option (TaskState × List Effect) :=
  update_status (renameBT t r) r

/-- `Queuing.tasks` of Presentable.py: the pool's tasks filtered by
`status != REMOVED` and `status != COMPLETE` (the old-generation `REMOVED`
constant is the trashed state). -/
def queuingIncludes (s : Status) : Bool :=
  decide (s ≠ Status.TRASHED) && decide (s ≠ Status.COMPLETE)

/-- `Category._get_tasks` of Presentable.py: the category's tasks filtered by
`status == COMPLETE`. -/
def categoryIncludes (s : Status) : Bool :=
  decide (s = Status.COMPLETE)

/-- `Dustbin.tasks` of Presentable.py: the pool's tasks filtered by
`status == REMOVED` (the old-generation `REMOVED` constant is the trashed
state). -/
def dustbinIncludes (s : Status) : Bool :=
  decide (s = Status.TRASHED)

/-- Number of 'task-added' emissions in an effect list. -/
def countTaskAdded (l : List Effect) : Nat :=
  (l.filter fun e => match e with
    | Effect.taskAdded _ => true
    | _ => false).length

/-- The event-loop state of one task: the task record, the in-flight remote
calls whose callbacks have not yet fired, and a ghost history flag recording
whether an add call ever succeeded (set when `_on_started` runs). -/
structure SysState where
  task : TaskState
  pending : List PendingCall
  everAdded : Bool
deriving DecidableEq, Repr

/-- One event-loop step: a user operation (start/pause/trash/restore), a GLib
scheduler tick, or the engine's response (success or failure) to one in-flight
call.  Each remote call's callback/errback pair is the one wired in Task.py;
every errback is `_on_xmlrpc_error`.  The response to a successful add carries
a non-empty engine-assigned gid (aria2 gids are 16-character identifiers).
`Task.remove` destroys the record, ending the task's history, so it has no
step.  The tellStatus callback is the subclass override selected by the task's
kind, as under the ORM's polymorphic dispatch. -/
inductive Step : SysState → SysState → Prop
  | start_op (s s' : SysState)
      (h : s' = ⟨(start s.task).1, s.pending ++ (start s.task).2.2, s.everAdded⟩) :
      Step s s'
  | pause_op (s s' : SysState)
      (h : s' = ⟨(pause s.task).1, s.pending ++ (pause s.task).2.2, s.everAdded⟩) :
      Step s s'
  | trash_op (s s' : SysState)
      (h : s' = ⟨(trash s.task).1, s.pending ++ (trash s.task).2.2, s.everAdded⟩) :
      Step s s'
  | restore_op (s s' : SysState)
      (h : s' = ⟨(restore s.task).1, s.pending, s.everAdded⟩) :
      Step s s'
  | tick_poll (s s' : SysState)
      (hh : truthy s.task.status_update_handle = true)
      (h : s' = ⟨(call_tell_status s.task).1,
                 s.pending ++ (call_tell_status s.task).2.2.1, s.everAdded⟩) :
      Step s s'
  | tick_sync (s s' : SysState)
      (hh : truthy s.task.database_sync_handle = true)
      (h : s' = s) :
      Step s s'
  | resp_add_ok (s s' : SysState) (r : AddResult)
      (q : TaskState × List Effect × List PendingCall)
      (hmem : PendingCall.addCall ∈ s.pending)
      (hr : on_started s.task r = some q)
      (hg : addResultGid r ≠ "")
      (h : s' = ⟨q.1, (s.pending.erase PendingCall.addCall) ++ q.2.2, true⟩) :
      Step s s'
  | resp_err (s s' : SysState) (c : PendingCall)
      (hmem : c ∈ s.pending)
      (h : s' = ⟨(on_xmlrpc_error s.task).1, s.pending.erase c, s.everAdded⟩) :
      Step s s'
  | resp_pause_ok (s s' : SysState)
      (hmem : PendingCall.pauseCall ∈ s.pending)
      (h : s' = ⟨(on_paused s.task).1,
                 s.pending.erase PendingCall.pauseCall, s.everAdded⟩) :
      Step s s'
  | resp_unpause_ok (s s' : SysState)
      (hmem : PendingCall.unpauseCall ∈ s.pending)
      (h : s' = ⟨(on_unpaused s.task).1,
                 s.pending.erase PendingCall.unpauseCall, s.everAdded⟩) :
      Step s s'
  | resp_remove_ok (s s' : SysState)
      (hmem : PendingCall.removeCall ∈ s.pending)
      (h : s' = ⟨(on_trashed s.task).1,
                 s.pending.erase PendingCall.removeCall, s.everAdded⟩) :
      Step s s'
  | resp_tell_normal (s s' : SysState) (r : TellStatus) (q : TaskState × List Effect)
      (ht : s.task.ttype = TaskType.NORMAL)
      (hmem : PendingCall.tellStatusCall ∈ s.pending)
      (hr : normal_update_status s.task r = some q)
      (h : s' = ⟨q.1, s.pending.erase PendingCall.tellStatusCall, s.everAdded⟩) :
      Step s s'
  | resp_tell_bt (s s' : SysState) (r : TellStatus) (q : TaskState × List Effect)
      (ht : s.task.ttype = TaskType.BT)
      (hmem : PendingCall.tellStatusCall ∈ s.pending)
      (hr : bt_update_status s.task r = some q)
      (h : s' = ⟨q.1, s.pending.erase PendingCall.tellStatusCall, s.everAdded⟩) :
      Step s s'
  | resp_tell_ml (s s' : SysState) (r : TellStatus) (q : TaskState × List Effect)
      (ht : s.task.ttype = TaskType.ML)
      (hmem : PendingCall.tellStatusCall ∈ s.pending)
      (hr : update_status s.task r = some q)
      (h : s' = ⟨q.1, s.pending.erase PendingCall.tellStatusCall, s.everAdded⟩) :
      Step s s'
  | resp_session_ok (s s' : SysState) (sid : String)
      (hmem : PendingCall.sessionInfoCall ∈ s.pending)
      (h : s' = ⟨(on_got_session_info s.task sid).1,
                 s.pending.erase PendingCall.sessionInfoCall, s.everAdded⟩) :
      Step s s'

/-- A freshly constructed task, as `Task.__init__` is reached from the UI:
status Inactive, empty gid, no schedules, zero total length (the column
defaults), no in-flight calls, never added. -/
def InitSys (s : SysState) : Prop :=
  s.task.status = Status.INACTIVE ∧ s.task.gid = "" ∧
  s.task.status_update_handle = none ∧ s.task.database_sync_handle = none ∧
  s.task.total_length = 0 ∧ s.pending = [] ∧ s.everAdded = false

/-- Event-loop states reachable from a freshly constructed task. -/
inductive Reachable : SysState → Prop
  | init (s : SysState) (h : InitSys s) : Reachable s
  | step (s s' : SysState) (h : Reachable s) (hs : Step s s') : Reachable s'

/-- The inductive invariant: the gid is empty exactly until the first
successful add, and before that the task can only be Inactive, Error or
Trashed, is never polling, still has the default zero total length, and has
at most add calls in flight. -/
def Inv (s : SysState) : Prop :=
  (s.task.gid = "" ↔ s.everAdded = false) ∧
  (s.everAdded = false →
    (s.task.status = Status.INACTIVE ∨ s.task.status = Status.ERROR ∨
     s.task.status = Status.TRASHED) ∧
    truthy s.task.status_update_handle = false ∧
    s.task.total_length = 0 ∧
    ∀ c ∈ s.pending, c = PendingCall.addCall)

/-- A freshly constructed plain-URI task, with the constructor's column
defaults (Inactive, empty gid, zero lengths, no schedules). -/
def taskZero : TaskState :=
  { name := "task", status := Status.INACTIVE, ttype := TaskType.NORMAL,
    uris := ["http://example.com/a.iso"], completed_length := 0,
    total_length := 0, gid := "", session_id := "", upload_speed := 0,
    download_speed := 0, connections := 0, status_update_handle := none,
    database_sync_handle := none, renamed := false, next_handle := 1 }

/-- The event-loop state holding a freshly constructed task. -/
def sysInit : SysState := ⟨taskZero, [], false⟩

/-- After the user calls `start()` on the fresh task: the add call is in
flight and the task has joined the queue. -/
def sysStarted : SysState :=
  ⟨(start sysInit.task).1, sysInit.pending ++ (start sysInit.task).2.2,
   sysInit.everAdded⟩

/-- After the engine rejects the add call (e.g. connection refused): the
errback `_on_xmlrpc_error` has run. -/
def sysAddFailed : SysState :=
  ⟨(on_xmlrpc_error sysStarted.task).1,
   sysStarted.pending.erase PendingCall.addCall, sysStarted.everAdded⟩

/-- The task state right after a successful add: `_on_started` stored the
engine-assigned gid, set status Active and registered both schedules. -/
def taskAddedState : TaskState :=
  { taskZero with
    gid := "2089b05ecca3d829",
    status := Status.ACTIVE,
    status_update_handle := some 1,
    database_sync_handle := some 2,
    next_handle := 3 }

/-- The event-loop state after a successful add: the session-identifier
fetch issued by `_update_session_id` is the one in-flight call. -/
def sysAdded : SysState :=
  ⟨taskAddedState, [PendingCall.sessionInfoCall], true⟩

/-- The event-loop state after the engine rejects that session-identifier
fetch: the errback `_on_xmlrpc_error` has run. -/
def sysSessionFailed : SysState :=
  ⟨(on_xmlrpc_error sysAdded.task).1,
   sysAdded.pending.erase PendingCall.sessionInfoCall, sysAdded.everAdded⟩

/-- A first tellStatus response for a plain-URI task: one result file with
basename "a.iso". -/
def firstPoll : TellStatus :=
  { statusStr := "active", totalLength := 1000, completedLength := 10,
    downloadSpeed := 128, uploadSpeed := 0, connections := 1,
    files := ["/downloads/a.iso"], bittorrent := none }

/-- A second tellStatus response reporting one file with a different
basename "b.iso". -/
def secondPoll : TellStatus :=
  { firstPoll with completedLength := 20, files := ["/downloads/b.iso"] }

/-- A concrete Complete task with both periodic schedules still active. -/
def taskDonePolling : TaskState :=
  { taskZero with
    status := Status.COMPLETE,
    status_update_handle := some 5,
    database_sync_handle := some 6 }


/-- A concrete Trashed task whose download had finished
(completed_length = total_length > 0). -/
def taskTrashedDone : TaskState :=
  { taskZero with
    status := Status.TRASHED,
    total_length := 5,
    completed_length := 5 }

/-- A concrete Trashed task whose download had not finished. -/
def taskTrashedPartial : TaskState :=
  { taskZero with
    status := Status.TRASHED,
    total_length := 5,
    completed_length := 4 }

theorem setStatus_fst (t : TaskState) (st : Status) :
    (setStatus t st).1 = { t with status := st } := by
  unfold setStatus; split <;> rfl

theorem start_fst (t : TaskState) : (start t).1 = t := by
  unfold start add
  split
  · rfl
  · split <;> rfl

theorem pause_fst (t : TaskState) : (pause t).1 = t := by
  unfold pause; split <;> rfl

theorem on_trashed_fst (t : TaskState) :
    (on_trashed t).1 = { t with status := Status.TRASHED } := by
  unfold on_trashed; rw [setStatus_fst]

theorem on_paused_fst (t : TaskState) :
    (on_paused t).1 = { t with status := Status.PAUSED } := by
  unfold on_paused; rw [setStatus_fst]

theorem on_unpaused_fst (t : TaskState) :
    (on_unpaused t).1 = { t with status := Status.ACTIVE } := by
  unfold on_unpaused; rw [setStatus_fst]

theorem on_xmlrpc_error_fst (t : TaskState) :
    (on_xmlrpc_error t).1 = { t with status := Status.ERROR } := by
  unfold on_xmlrpc_error; rw [setStatus_fst]

theorem trash_fst (t : TaskState) :
    (trash t).1 = if t.status = Status.COMPLETE ∨ t.status = Status.ERROR ∨
                     t.status = Status.INACTIVE
                  then { t with status := Status.TRASHED } else t := by
  unfold trash
  split
  · exact on_trashed_fst t
  · split <;> rfl

theorem restore_fst (t : TaskState) :
    (restore t).1 = if t.status = Status.TRASHED then
                      (if completed t then { t with status := Status.COMPLETE }
                       else { t with status := Status.INACTIVE })
                    else t := by
  unfold restore
  split
  · split
    · exact setStatus_fst t Status.COMPLETE
    · exact setStatus_fst t Status.INACTIVE
  · rfl

theorem begin_update_status_gid (t : TaskState) :
    (begin_update_status t).1.gid = t.gid := by
  unfold begin_update_status; split <;> rfl

theorem begin_update_status_status (t : TaskState) :
    (begin_update_status t).1.status = t.status := by
  unfold begin_update_status; split <;> rfl

theorem begin_update_status_isSome (t : TaskState) :
    (begin_update_status t).1.status_update_handle.isSome = true := by
  unfold begin_update_status
  split
  · rfl
  · rename_i hne
    simp only [Option.isSome_iff_ne_none]
    exact hne

theorem cancelHandle_fst (o : Option Nat) (h : o ≠ some 0) :
    (cancelHandle o).1 = none := by
  unfold cancelHandle truthy
  cases o with
  | none => rfl
  | some k =>
    have hk : k ≠ 0 := fun hk0 => h (by rw [hk0])
    simp [hk]

theorem cancelHandle_no_remote (o : Option Nat) (m : String) :
    Effect.remoteCall m ∉ (cancelHandle o).2 := by
  unfold cancelHandle
  split <;> simp

theorem end_update_status_gid (t : TaskState) :
    (end_update_status t).1.gid = t.gid := rfl

theorem end_update_status_status (t : TaskState) :
    (end_update_status t).1.status = t.status := rfl

theorem call_tell_status_fst (t : TaskState) :
    (call_tell_status t).1 =
      if t.status = Status.COMPLETE ∨ t.status = Status.ERROR ∨
         t.status = Status.TRASHED ∨ t.status = Status.INACTIVE
      then (end_update_status t).1 else t := by
  unfold call_tell_status
  split <;> rfl

theorem call_tell_status_gid (t : TaskState) :
    (call_tell_status t).1.gid = t.gid := by
  rw [call_tell_status_fst]
  split <;> rfl

theorem apply_status_fst (t0 : TaskState) (st : Status) :
    (apply_status t0 st).1 = { t0 with status := st } := by
  unfold apply_status
  split
  · exact setStatus_fst t0 st
  · split
    · rename_i hT
      rw [setStatus_fst] at hT
      simp only at hT
      subst hT
      rw [on_trashed_fst, setStatus_fst]
    · exact setStatus_fst t0 st

theorem update_status_eq (t : TaskState) (r : TellStatus) (st : Status)
    (h : mapStatus r.statusStr = some st) :
    update_status t r = some (apply_status (withData t r) st) := by
  unfold update_status
  rw [h]

theorem update_status_gid (t : TaskState) (r : TellStatus)
    (q : TaskState × List Effect) (h : update_status t r = some q) :
    q.1.gid = t.gid := by
  unfold update_status at h
  cases hm : mapStatus r.statusStr with
  | none => rw [hm] at h; exact absurd h (by simp)
  | some st =>
    rw [hm] at h
    simp only [Option.some.injEq] at h
    rw [← h, apply_status_fst]
    rfl

theorem renameNormal_gid (t : TaskState) (r : TellStatus) :
    (renameNormal t r).gid = t.gid := by
  unfold renameNormal
  split
  · split
    · split <;> rfl
    · rfl
  · rfl

theorem renameBT_gid (t : TaskState) (r : TellStatus) :
    (renameBT t r).gid = t.gid := by
  unfold renameBT
  split
  · split
    · split <;> rfl
    · rfl
  · rfl

theorem normal_update_status_gid (t : TaskState) (r : TellStatus)
    (q : TaskState × List Effect) (h : normal_update_status t r = some q) :
    q.1.gid = t.gid := by
  unfold normal_update_status at h
  rw [update_status_gid _ _ _ h, renameNormal_gid]

theorem bt_update_status_gid (t : TaskState) (r : TellStatus)
    (q : TaskState × List Effect) (h : bt_update_status t r = some q) :
    q.1.gid = t.gid := by
  unfold bt_update_status at h
  rw [update_status_gid _ _ _ h, renameBT_gid]

theorem on_started_props (t : TaskState) (r : AddResult)
    (q : TaskState × List Effect × List PendingCall)
    (h : on_started t r = some q) :
    q.1.gid = addResultGid r ∧ q.1.status = Status.ACTIVE ∧
    q.1.status_update_handle.isSome = true ∧
    q.2.2 = [PendingCall.sessionInfoCall] := by
  have key : ∀ (t1 : TaskState),
      (begin_update_status (setStatus t1 Status.ACTIVE).1).1.gid = t1.gid ∧
      (begin_update_status (setStatus t1 Status.ACTIVE).1).1.status = Status.ACTIVE ∧
      (begin_update_status (setStatus t1 Status.ACTIVE).1).1.status_update_handle.isSome
        = true := by
    intro t1
    refine ⟨?_, ?_, begin_update_status_isSome _⟩
    · rw [begin_update_status_gid, setStatus_fst]
    · rw [begin_update_status_status, setStatus_fst]
  cases r with
  | str s =>
    simp only [on_started, Option.some.injEq] at h
    rw [← h]
    exact ⟨(key _).1, (key _).2.1, (key _).2.2, rfl⟩
  | list l =>
    cases l with
    | nil => simp [on_started] at h
    | cons a as =>
      simp only [on_started, Option.some.injEq] at h
      rw [← h]
      exact ⟨(key _).1, (key _).2.1, (key _).2.2, rfl⟩

theorem trash_gid (t : TaskState) : (trash t).1.gid = t.gid := by
  rw [trash_fst]; split <;> rfl

theorem trash_suh (t : TaskState) :
    (trash t).1.status_update_handle = t.status_update_handle := by
  rw [trash_fst]; split <;> rfl

theorem trash_total (t : TaskState) :
    (trash t).1.total_length = t.total_length := by
  rw [trash_fst]; split <;> rfl

theorem trash_status_or (t : TaskState) :
    (trash t).1.status = t.status ∨ (trash t).1.status = Status.TRASHED := by
  rw [trash_fst]; split
  · exact Or.inr rfl
  · exact Or.inl rfl

theorem trash_pending_preadd (t : TaskState)
    (h : t.status = Status.INACTIVE ∨ t.status = Status.ERROR ∨
         t.status = Status.TRASHED) :
    (trash t).2.2 = [] := by
  rcases h with h | h | h <;> simp [trash, h]

theorem restore_gid (t : TaskState) : (restore t).1.gid = t.gid := by
  rw [restore_fst]; split
  · split <;> rfl
  · rfl

theorem restore_suh (t : TaskState) :
    (restore t).1.status_update_handle = t.status_update_handle := by
  rw [restore_fst]; split
  · split <;> rfl
  · rfl

theorem restore_total (t : TaskState) :
    (restore t).1.total_length = t.total_length := by
  rw [restore_fst]; split
  · split <;> rfl
  · rfl

theorem start_pending_preadd (t : TaskState)
    (h : t.status = Status.INACTIVE ∨ t.status = Status.ERROR ∨
         t.status = Status.TRASHED) :
    ∀ c ∈ (start t).2.2, c = PendingCall.addCall := by
  rcases h with h | h | h <;> simp [start, add, h]

theorem pause_pending_preadd (t : TaskState)
    (h : t.status = Status.INACTIVE ∨ t.status = Status.ERROR ∨
         t.status = Status.TRASHED) :
    (pause t).2.2 = [] := by
  rcases h with h | h | h <;> simp [pause, h]

/-- The inductive invariant is preserved by every event-loop step. -/
theorem inv_preserved (s s' : SysState) (hs : Step s s') (ih : Inv s) :
    Inv s' := by
  obtain ⟨ih1, ih2⟩ := ih
  cases hs with
  | start_op h =>
    subst h
    refine ⟨by rw [start_fst]; exact ih1, fun hA => ?_⟩
    obtain ⟨hst, hh, htl, hp⟩ := ih2 hA
    refine ⟨by rw [start_fst]; exact hst, by rw [start_fst]; exact hh,
            by rw [start_fst]; exact htl, fun c hc => ?_⟩
    rcases List.mem_append.mp hc with hc | hc
    · exact hp c hc
    · exact start_pending_preadd s.task hst c hc
  | pause_op h =>
    subst h
    refine ⟨by rw [pause_fst]; exact ih1, fun hA => ?_⟩
    obtain ⟨hst, hh, htl, hp⟩ := ih2 hA
    refine ⟨by rw [pause_fst]; exact hst, by rw [pause_fst]; exact hh,
            by rw [pause_fst]; exact htl, fun c hc => ?_⟩
    rcases List.mem_append.mp hc with hc | hc
    · exact hp c hc
    · rw [pause_pending_preadd s.task hst] at hc
      exact absurd hc (List.not_mem_nil c)
  | trash_op h =>
    subst h
    refine ⟨by rw [trash_gid]; exact ih1, fun hA => ?_⟩
    obtain ⟨hst, hh, htl, hp⟩ := ih2 hA
    refine ⟨?_, by rw [trash_suh]; exact hh, by rw [trash_total]; exact htl,
            fun c hc => ?_⟩
    · rcases trash_status_or s.task with h' | h'
      · rw [h']; exact hst
      · rw [h']; exact Or.inr (Or.inr rfl)
    · rcases List.mem_append.mp hc with hc | hc
      · exact hp c hc
      · rw [trash_pending_preadd s.task hst] at hc
        exact absurd hc (List.not_mem_nil c)
  | restore_op h =>
    subst h
    refine ⟨by rw [restore_gid]; exact ih1, fun hA => ?_⟩
    obtain ⟨hst, hh, htl, hp⟩ := ih2 hA
    refine ⟨?_, by rw [restore_suh]; exact hh,
            by rw [restore_total]; exact htl, hp⟩
    have hcm : completed s.task = false := by simp [completed, htl]
    rw [restore_fst]
    split
    · rw [hcm]
      exact Or.inl rfl
    · exact hst
  | tick_poll hh h =>
    subst h
    cases hEA : s.everAdded with
    | false =>
      obtain ⟨hst, hh', htl, hp⟩ := ih2 hEA
      rw [hh'] at hh
      exact absurd hh (by simp)
    | true =>
      refine ⟨?_, fun hA => absurd hA (by simp)⟩
      rw [hEA] at ih1
      simpa [call_tell_status_gid] using ih1
  | tick_sync hh h =>
    subst h
    exact ⟨ih1, ih2⟩
  | resp_add_ok r q hmem hr hg h =>
    subst h
    have hprops := on_started_props s.task r q hr
    refine ⟨?_, fun hA => absurd hA (by simp)⟩
    constructor
    · intro hgid
      rw [hprops.1] at hgid
      exact absurd hgid hg
    · intro hff
      exact absurd hff (by simp)
  | resp_err c hmem h =>
    subst h
    refine ⟨by rw [on_xmlrpc_error_fst]; exact ih1, fun hA => ?_⟩
    obtain ⟨hst, hh, htl, hp⟩ := ih2 hA
    rw [on_xmlrpc_error_fst]
    exact ⟨Or.inr (Or.inl rfl), hh, htl,
           fun c' hc' => hp c' (List.mem_of_mem_erase hc')⟩
  | resp_pause_ok hmem h =>
    subst h
    cases hEA : s.everAdded with
    | false =>
      obtain ⟨hst, hh, htl, hp⟩ := ih2 hEA
      exact absurd (hp _ hmem) (by simp)
    | true =>
      refine ⟨?_, fun hA => absurd hA (by simp)⟩
      rw [hEA] at ih1
      simpa [on_paused_fst] using ih1
  | resp_unpause_ok hmem h =>
    subst h
    cases hEA : s.everAdded with
    | false =>
      obtain ⟨hst, hh, htl, hp⟩ := ih2 hEA
      exact absurd (hp _ hmem) (by simp)
    | true =>
      refine ⟨?_, fun hA => absurd hA (by simp)⟩
      rw [hEA] at ih1
      simpa [on_unpaused_fst] using ih1
  | resp_remove_ok hmem h =>
    subst h
    cases hEA : s.everAdded with
    | false =>
      obtain ⟨hst, hh, htl, hp⟩ := ih2 hEA
      exact absurd (hp _ hmem) (by simp)
    | true =>
      refine ⟨?_, fun hA => absurd hA (by simp)⟩
      rw [hEA] at ih1
      simpa [on_trashed_fst] using ih1
  | resp_tell_normal r q ht hmem hr h =>
    subst h
    cases hEA : s.everAdded with
    | false =>
      obtain ⟨hst, hh, htl, hp⟩ := ih2 hEA
      exact absurd (hp _ hmem) (by simp)
    | true =>
      refine ⟨?_, fun hA => absurd hA (by simp)⟩
      rw [hEA] at ih1
      simpa [normal_update_status_gid _ _ _ hr] using ih1
  | resp_tell_bt r q ht hmem hr h =>
    subst h
    cases hEA : s.everAdded with
    | false =>
      obtain ⟨hst, hh, htl, hp⟩ := ih2 hEA
      exact absurd (hp _ hmem) (by simp)
    | true =>
      refine ⟨?_, fun hA => absurd hA (by simp)⟩
      rw [hEA] at ih1
      simpa [bt_update_status_gid _ _ _ hr] using ih1
  | resp_tell_ml r q ht hmem hr h =>
    subst h
    cases hEA : s.everAdded with
    | false =>
      obtain ⟨hst, hh, htl, hp⟩ := ih2 hEA
      exact absurd (hp _ hmem) (by simp)
    | true =>
      refine ⟨?_, fun hA => absurd hA (by simp)⟩
      rw [hEA] at ih1
      simpa [update_status_gid _ _ _ hr] using ih1
  | resp_session_ok sid hmem h =>
    subst h
    cases hEA : s.everAdded with
    | false =>
      obtain ⟨hst, hh, htl, hp⟩ := ih2 hEA
      exact absurd (hp _ hmem) (by simp)
    | true =>
      refine ⟨?_, fun hA => absurd hA (by simp)⟩
      rw [hEA] at ih1
      simpa using ih1

/-- The inductive invariant holds in every reachable event-loop state. -/
theorem inv_reachable (s : SysState) (h : Reachable s) : Inv s := by
  induction h with
  | init s h0 =>
    obtain ⟨h1, h2, h3, h4, h5, h6, h7⟩ := h0
    refine ⟨by rw [h2, h7]; simp, fun _ => ⟨Or.inl h1, by rw [h3]; rfl, h5, ?_⟩⟩
    rw [h6]
    intro c hc
    exact absurd hc (List.not_mem_nil c)
  | step s s' h hs ih =>
    exact inv_preserved s s' hs ih

theorem begin_update_status_noop (t : TaskState)
    (h : t.status_update_handle ≠ none) : begin_update_status t = (t, []) := by
  unfold begin_update_status
  rw [if_neg h]

theorem on_xmlrpc_error_snd (t : TaskState) :
    (on_xmlrpc_error t).2 =
      (setStatus t Status.ERROR).2 ++ [Effect.notification "Network Error"] :=
  rfl

/-- C2: for every task status, exactly one of the three grouping membership
queries includes a task of that status: Queuing (`status != REMOVED and
status != COMPLETE`) iff the status is neither Complete nor Trashed, Category
(`status == COMPLETE`) iff Complete, Dustbin (`status == REMOVED`) iff
Trashed. -/
theorem grouping_membership_partition (s : Status) :
    ((queuingIncludes s).toNat + (categoryIncludes s).toNat +
      (dustbinIncludes s).toNat = 1) ∧
    (queuingIncludes s = true ↔ ¬(s = Status.COMPLETE ∨ s = Status.TRASHED)) ∧
    (categoryIncludes s = true ↔ s = Status.COMPLETE) ∧
    (dustbinIncludes s = true ↔ s = Status.TRASHED) := by
  cases s <;> decide

/-- C7: `begin_update_status` is idempotent — after one call a poll schedule
is active, and a second call returns the state unchanged, registers nothing,
and leaves both the status-update handle and the database-sync handle as the
first call left them. -/
theorem begin_update_status_idempotent (t : TaskState) :
    (begin_update_status (begin_update_status t).1).1 =
      (begin_update_status t).1 ∧
    (begin_update_status (begin_update_status t).1).2 = [] ∧
    (begin_update_status (begin_update_status t).1).1.status_update_handle =
      (begin_update_status t).1.status_update_handle ∧
    (begin_update_status (begin_update_status t).1).1.database_sync_handle =
      (begin_update_status t).1.database_sync_handle ∧
    (begin_update_status t).1.status_update_handle.isSome = true := by
  have hsecond : begin_update_status (begin_update_status t).1 =
      ((begin_update_status t).1, []) := by
    apply begin_update_status_noop
    exact Option.isSome_iff_ne_none.mp (begin_update_status_isSome t)
  rw [hsecond]
  exact ⟨rfl, rfl, rfl, rfl, begin_update_status_isSome t⟩

/-- C9: `pause()` on a task that is neither Active nor Waiting issues no
remote call, changes no field and produces no effect at all — a silent
no-op. -/
theorem pause_invalid_transition_noop (t : TaskState)
    (h : ¬(t.status = Status.ACTIVE ∨ t.status = Status.WAITING)) :
    pause t = (t, [], []) := by
  unfold pause
  rw [if_neg h]

/-- Witness for C9 at a concrete Inactive task. -/
theorem pause_invalid_transition_noop_witness :
    pause taskZero = (taskZero, [], []) :=
  pause_invalid_transition_noop taskZero (by decide)

/-- C1: the periodic poll callback returns "continue" (True) iff the status
is outside {Complete, Error, Trashed, Inactive}; in that terminal set it
invokes `end_update_status` — cancelling both the status-poll and the
database-sync schedule — issues no remote call and returns "stop" (False);
otherwise it issues exactly one tellStatus call and returns "continue".
(The handle hypotheses say the stored GLib source ids are not 0, which
`timeout_add_seconds` never returns.) -/
theorem poll_callback_spec (t : TaskState)
    (h1 : t.status_update_handle ≠ some 0)
    (h2 : t.database_sync_handle ≠ some 0) :
    ((call_tell_status t).2.2.2 = true ↔
      ¬(t.status = Status.COMPLETE ∨ t.status = Status.ERROR ∨
        t.status = Status.TRASHED ∨ t.status = Status.INACTIVE)) ∧
    ((t.status = Status.COMPLETE ∨ t.status = Status.ERROR ∨
      t.status = Status.TRASHED ∨ t.status = Status.INACTIVE) →
      (call_tell_status t).1 = (end_update_status t).1 ∧
      (call_tell_status t).2.1 = (end_update_status t).2 ∧
      (call_tell_status t).1.status_update_handle = none ∧
      (call_tell_status t).1.database_sync_handle = none ∧
      (∀ m, Effect.remoteCall m ∉ (call_tell_status t).2.1) ∧
      (call_tell_status t).2.2.1 = [] ∧
      (call_tell_status t).2.2.2 = false) ∧
    (¬(t.status = Status.COMPLETE ∨ t.status = Status.ERROR ∨
       t.status = Status.TRASHED ∨ t.status = Status.INACTIVE) →
      (call_tell_status t).1 = t ∧
      (call_tell_status t).2.1 = [Effect.remoteCall "aria2.tellStatus"] ∧
      (call_tell_status t).2.2.1 = [PendingCall.tellStatusCall] ∧
      (call_tell_status t).2.2.2 = true) := by
  by_cases hterm : t.status = Status.COMPLETE ∨ t.status = Status.ERROR ∨
      t.status = Status.TRASHED ∨ t.status = Status.INACTIVE
  · have hc : call_tell_status t =
        ((end_update_status t).1, (end_update_status t).2, [], false) := by
      unfold call_tell_status
      rw [if_pos hterm]
    rw [hc]
    refine ⟨by simp [hterm], fun _ => ⟨rfl, rfl, ?_, ?_, ?_, rfl, rfl⟩,
            fun hn => absurd hterm hn⟩
    · show (cancelHandle t.status_update_handle).1 = none
      exact cancelHandle_fst _ h1
    · show (cancelHandle t.database_sync_handle).1 = none
      exact cancelHandle_fst _ h2
    · intro m hm
      rcases List.mem_append.mp hm with hm | hm
      · exact cancelHandle_no_remote _ m hm
      · exact cancelHandle_no_remote _ m hm
  · have hc : call_tell_status t =
        (t, [Effect.remoteCall "aria2.tellStatus"],
         [PendingCall.tellStatusCall], true) := by
      unfold call_tell_status
      rw [if_neg hterm]
    rw [hc]
    exact ⟨by simp [hterm], fun hp => absurd hp hterm,
           fun _ => ⟨rfl, rfl, rfl, rfl⟩⟩

/-- Witness for C1 at a concrete Complete task with both schedules active:
the poll self-cancels and reports "stop". -/
theorem poll_callback_spec_witness :
    (call_tell_status taskDonePolling).1.status_update_handle = none ∧
    (call_tell_status taskDonePolling).1.database_sync_handle = none ∧
    (call_tell_status taskDonePolling).2.2.2 = false := by
  have h := poll_callback_spec taskDonePolling (by decide) (by decide)
  have ht := h.2.1 (Or.inl rfl)
  exact ⟨ht.2.2.1, ht.2.2.2.1, ht.2.2.2.2.2.2⟩

/-- C3: for every successful add callback, `_on_started` stores the last
element when the result is a list and the result itself otherwise, the
status becomes Active and a status-poll schedule is active afterwards. -/
theorem on_started_gid_rule (t : TaskState) (r : AddResult)
    (q : TaskState × List Effect × List PendingCall)
    (h : on_started t r = some q) :
    q.1.gid = addResultGid r ∧
    (∀ l, r = AddResult.list l → q.1.gid = l.getLastD "") ∧
    (∀ x, r = AddResult.str x → q.1.gid = x) ∧
    q.1.status = Status.ACTIVE ∧
    q.1.status_update_handle.isSome = true := by
  have hp := on_started_props t r q h
  refine ⟨hp.1, ?_, ?_, hp.2.1, hp.2.2.1⟩
  · intro l hl
    rw [hp.1, hl]
    rfl
  · intro x hx
    rw [hp.1, hx]
    rfl

/-- Witness for C3: `addMetalink` returning ["gid1", "gid2"] makes the
tracked identifier "gid2", the status Active, and polling active. -/
theorem on_started_gid_rule_witness :
    (on_started taskZero (AddResult.list ["gid1", "gid2"])).map
      (fun q => (q.1.gid, q.1.status, q.1.status_update_handle.isSome)) =
    some ("gid2", Status.ACTIVE, true) := by
  cases hq : on_started taskZero (AddResult.list ["gid1", "gid2"]) with
  | none => exact absurd hq (by decide)
  | some q =>
    have hm := on_started_gid_rule taskZero (AddResult.list ["gid1", "gid2"]) q hq
    rw [Option.map_some']
    rw [hm.1, hm.2.2.2.1, hm.2.2.2.2]
    rfl

/-- C4 (counterexample): the claim says a failing `getSessionInfo` fetch
leaves the status field unchanged, but the errback wired to that call in
`_update_session_id` is `_on_xmlrpc_error`, which assigns status Error.  In
the reachable state right after a successful add — status Active, session
fetch in flight — the failure response step changes the status to Error. -/
theorem session_failure_keeps_status_cex :
    Reachable sysAdded ∧
    sysAdded.task.status = Status.ACTIVE ∧
    Step sysAdded sysSessionFailed ∧
    sysSessionFailed.task.status = Status.ERROR ∧
    ¬ (sysSessionFailed.task.status = sysAdded.task.status) := by
  have h0 : Reachable sysInit :=
    Reachable.init sysInit ⟨rfl, rfl, rfl, rfl, rfl, rfl, rfl⟩
  have h1 : Reachable sysStarted :=
    Reachable.step _ _ h0 (Step.start_op _ _ rfl)
  have h2 : Reachable sysAdded :=
    Reachable.step _ _ h1
      (Step.resp_add_ok sysStarted sysAdded
        (AddResult.str "2089b05ecca3d829")
        ((on_started sysStarted.task
          (AddResult.str "2089b05ecca3d829")).getD (taskZero, [], []))
        (by decide) (by decide) (by decide) (by decide))
  exact ⟨h2, rfl,
         Step.resp_err _ _ PendingCall.sessionInfoCall (by decide) rfl,
         rfl, by decide⟩

/-- C4 (amended): when the session-identifier fetch fails, the shared errback
sets the status field to Error (committing and emitting 'changed' when it
differed) and shows one Network Error notification; every other field of the
task is left unchanged. -/
theorem session_failure_sets_error (t : TaskState) :
    (on_xmlrpc_error t).1 = { t with status := Status.ERROR } ∧
    (on_xmlrpc_error t).2 =
      (if t.status = Status.ERROR then []
       else [Effect.syncUpdate, Effect.changedSignal]) ++
      [Effect.notification "Network Error"] := by
  refine ⟨on_xmlrpc_error_fst t, ?_⟩
  rw [on_xmlrpc_error_snd]
  unfold setStatus
  by_cases hE : t.status = Status.ERROR
  · rw [if_neg (by simp [hE]), if_pos hE]
  · rw [if_pos (by simp [hE]), if_neg hE]

/-- C5: `restore()` on a Trashed task removes it from the Dustbin and then,
when the download was complete (total_length > 0 and completed_length equal
to it), adds it to its Category with status Complete, otherwise adds it to
the Queue with status Inactive; on any non-Trashed task it changes nothing
and emits nothing. -/
theorem restore_spec (t : TaskState) :
    (t.status = Status.TRASHED →
      restore t =
        (if completed t then
          ({ t with status := Status.COMPLETE },
           removeTaskEffects Grouping.DUSTBIN ++
           addTaskEffects Grouping.CATEGORY ++
           [Effect.syncUpdate, Effect.changedSignal])
         else
          ({ t with status := Status.INACTIVE },
           removeTaskEffects Grouping.DUSTBIN ++
           addTaskEffects Grouping.QUEUING ++
           [Effect.syncUpdate, Effect.changedSignal])) ∧
      (completed t = true ↔
        0 < t.total_length ∧ t.total_length = t.completed_length)) ∧
    (t.status ≠ Status.TRASHED → restore t = (t, [])) := by
  constructor
  · intro hT
    constructor
    · unfold restore
      rw [if_pos hT]
      split <;> simp [setStatus, hT]
    · simp [completed, Nat.pos_iff_ne_zero]
  · intro hT
    unfold restore
    rw [if_neg hT]

/-- Witness for C5: a Trashed task with total = completed = 5 restores to
Complete, one with completed 4 of 5 restores to Inactive, and restore on an
Inactive task is a no-op. -/
theorem restore_spec_witness :
    (restore taskTrashedDone).1.status = Status.COMPLETE ∧
    (restore taskTrashedPartial).1.status = Status.INACTIVE ∧
    restore taskZero = (taskZero, []) := by
  refine ⟨?_, ?_, (restore_spec taskZero).2 (by decide)⟩
  · have h := ((restore_spec taskTrashedDone).1 rfl).1
    rw [h, if_pos (by decide : completed taskTrashedDone = true)]
  · have h := ((restore_spec taskTrashedPartial).1 rfl).1
    rw [h, if_neg (by decide : ¬ completed taskTrashedPartial = true)]

/-- C10: `start()` on an Inactive or Error task issues the kind-specific add
call and synchronously joins the Queue — exactly one task-added emission —
while the add response is still pending and the task state is unchanged; if
the add later fails, the errback sets status Error, notifies, and emits no
task-removed, so the task stays in the Queue. -/
theorem start_joins_queue_immediately (t : TaskState)
    (h : t.status = Status.INACTIVE ∨ t.status = Status.ERROR) :
    start t = (t, [Effect.remoteCall (addMethodName t.ttype),
                   Effect.presChanged Grouping.QUEUING,
                   Effect.taskAdded Grouping.QUEUING],
               [PendingCall.addCall]) ∧
    countTaskAdded (start t).2.1 = 1 ∧
    (on_xmlrpc_error t).1 = { t with status := Status.ERROR } ∧
    (∀ g, Effect.taskRemoved g ∉ (on_xmlrpc_error t).2) := by
  have hstart : start t = (t, [Effect.remoteCall (addMethodName t.ttype),
      Effect.presChanged Grouping.QUEUING, Effect.taskAdded Grouping.QUEUING],
      [PendingCall.addCall]) := by
    rcases h with h | h <;> simp [start, add, addTaskEffects, h]
  refine ⟨hstart, by rw [hstart]; rfl, on_xmlrpc_error_fst t, ?_⟩
  intro g hg
  rw [on_xmlrpc_error_snd] at hg
  unfold setStatus at hg
  split at hg <;> simp at hg

/-- Witness for C10 at a concrete fresh Inactive task. -/
theorem start_joins_queue_immediately_witness :
    start taskZero = (taskZero,
      [Effect.remoteCall "aria2.addUri", Effect.presChanged Grouping.QUEUING,
       Effect.taskAdded Grouping.QUEUING], [PendingCall.addCall]) :=
  (start_joins_queue_immediately taskZero (Or.inl rfl)).1

theorem renameNormal_locked (t : TaskState) (r : TellStatus)
    (h : t.renamed = true) : renameNormal t r = t := by
  unfold renameNormal
  rw [if_neg (by rw [h]; simp)]

/-- C6: for a plain-URI task not yet renamed, a first status update reporting
the single file "/downloads/a.iso" renames the task to the percent-decoded
basename "a.iso" and locks the rename; a second update reporting the single
file "/downloads/b.iso" leaves the name "a.iso" — the rename happens at most
once. -/
theorem rename_happens_once (t : TaskState) (h : t.renamed = false) :
    ((normal_update_status t firstPoll).map fun q => (q.1.name, q.1.renamed)) =
      some ("a.iso", true) ∧
    (∀ q, normal_update_status t firstPoll = some q →
      ((normal_update_status q.1 secondPoll).map
        fun q2 => (q2.1.name, q2.1.renamed)) = some ("a.iso", true)) := by
  have hname : unquote (basename "/downloads/a.iso") = "a.iso" := by decide
  have hr1 : renameNormal t firstPoll =
      { t with name := "a.iso", renamed := true } := by
    unfold renameNormal
    rw [if_pos h]
    show (if unquote (basename "/downloads/a.iso") ≠ "" then
            { t with name := unquote (basename "/downloads/a.iso"),
                     renamed := true }
          else t) = _
    rw [hname, if_pos (by decide : ("a.iso" : String) ≠ "")]
  have hms1 : mapStatus firstPoll.statusStr = some Status.ACTIVE := by decide
  have hms2 : mapStatus secondPoll.statusStr = some Status.ACTIVE := by decide
  have hfirst : normal_update_status t firstPoll =
      some (apply_status
        (withData { t with name := "a.iso", renamed := true } firstPoll)
        Status.ACTIVE) := by
    unfold normal_update_status
    rw [hr1, update_status_eq _ _ _ hms1]
  constructor
  · rw [hfirst, Option.map_some', apply_status_fst]
    rfl
  · intro q hq
    rw [hfirst, Option.some.injEq] at hq
    have hqname : q.1.name = "a.iso" := by
      rw [← hq, apply_status_fst]
      rfl
    have hqren : q.1.renamed = true := by
      rw [← hq, apply_status_fst]
      rfl
    have hsecond : normal_update_status q.1 secondPoll =
        some (apply_status (withData q.1 secondPoll) Status.ACTIVE) := by
      unfold normal_update_status
      rw [renameNormal_locked q.1 secondPoll hqren, update_status_eq _ _ _ hms2]
    rw [hsecond, Option.map_some', apply_status_fst]
    show some ((withData q.1 secondPoll).name, (withData q.1 secondPoll).renamed)
      = some ("a.iso", true)
    rw [show (withData q.1 secondPoll).name = q.1.name from rfl,
        show (withData q.1 secondPoll).renamed = q.1.renamed from rfl,
        hqname, hqren]

/-- Witness for C6 at a concrete fresh plain-URI task. -/
theorem rename_happens_once_witness :
    ((normal_update_status taskZero firstPoll).map
      fun q => (q.1.name, q.1.renamed)) = some ("a.iso", true) :=
  (rename_happens_once taskZero rfl).1

/-- C8 (counterexample): the claim "gid is empty iff the status is Inactive,
or Trashed without ever having been added" fails on a reachable state: a
fresh task whose `start()` issued an add that the engine rejected has
status Error (set by `_on_xmlrpc_error`) while its gid is still empty. -/
theorem gid_empty_iff_claim_cex :
    ¬ (∀ s : SysState, Reachable s →
        (s.task.gid = "" ↔ (s.task.status = Status.INACTIVE ∨
          (s.task.status = Status.TRASHED ∧ s.everAdded = false)))) := by
  intro hclaim
  have h0 : Reachable sysInit :=
    Reachable.init sysInit ⟨rfl, rfl, rfl, rfl, rfl, rfl, rfl⟩
  have h1 : Reachable sysStarted :=
    Reachable.step _ _ h0 (Step.start_op _ _ rfl)
  have h2 : Reachable sysAddFailed :=
    Reachable.step _ _ h1 (Step.resp_err _ _ PendingCall.addCall (by decide) rfl)
  have h := (hclaim sysAddFailed h2).mp (by decide)
  rcases h with h | ⟨h, _⟩ <;> revert h <;> decide

/-- C8 (amended): in every reachable event-loop state the identifier is
empty iff the task has never been successfully added to the engine; before
any successful add the status ranges only over Inactive, Error and Trashed
(so an empty gid also coexists with Error, after a failed add), and after a
successful add the identifier is non-empty in every status, Error and
Trashed included. -/
theorem gid_empty_iff_never_added (s : SysState) (h : Reachable s) :
    (s.task.gid = "" ↔ s.everAdded = false) ∧
    (s.everAdded = false →
      s.task.status = Status.INACTIVE ∨ s.task.status = Status.ERROR ∨
      s.task.status = Status.TRASHED) ∧
    (s.everAdded = true → s.task.gid ≠ "") := by
  have hi := inv_reachable s h
  refine ⟨hi.1, fun hA => (hi.2 hA).1, fun hT hg => ?_⟩
  rw [hi.1.mp hg] at hT
  exact Bool.noConfusion hT

/-- Witness for C8 at the concrete freshly-created reachable state. -/
theorem gid_empty_iff_never_added_witness :
    sysInit.task.gid = "" ∧ sysInit.task.status = Status.INACTIVE := by
  have h := gid_empty_iff_never_added sysInit
    (Reachable.init sysInit ⟨rfl, rfl, rfl, rfl, rfl, rfl, rfl⟩)
  exact ⟨h.1.mpr rfl, rfl⟩

end Yaner
